import Mathlib

/-!
Verification development for the `generate-assessment` HTTP handler
(`src/api/generate-assessment.js`).

The JavaScript handler is shallowly embedded as pure Lean functions.
External services (reCAPTCHA, Supabase, the Grok completion API, PDFMonkey,
the SMTP relay) are modelled as oracle outcomes carried in an `Env` record;
the handler consumes them in program order and records every outbound call
in an event trace, so that theorems can speak both about the HTTP response
and about which calls were (not) made, and in which order.

JavaScript platform builtins used by the handler (`JSON.parse`,
`String.prototype.trim/slice/startsWith/endsWith`, the regex fallback,
object property update, truthiness) are given explicit Lean models below.
`JSON.parse` itself is kept as a parameter `jsonParse` of the pipeline
(the parsing claims hold for an arbitrary parse function); a concrete
executable model `jsonParseImpl` of ECMA-404 JSON parsing is provided for
evaluating the code on concrete inputs.
-/

namespace ITAssess

/-- Characters treated as whitespace by JavaScript `String.prototype.trim`
(ASCII whitespace, NBSP and the BOM cover every case arising here). -/
def isJsSpace (c : Char) : Bool :=
  [32, 9, 10, 13, 11, 12, 160, 65279].contains c.toNat

/-- Model of JavaScript `String.prototype.trim`. -/
def jsTrim (s : String) : String :=
  ⟨((s.data.dropWhile isJsSpace).reverse.dropWhile isJsSpace).reverse⟩

/-- Model of JavaScript `String.prototype.startsWith`. -/
def jsStartsWith (s p : String) : Bool :=
  p.data.isPrefixOf s.data

/-- Model of JavaScript `String.prototype.endsWith`. -/
def jsEndsWith (s p : String) : Bool :=
  p.data.reverse.isPrefixOf s.data.reverse

/-- Model of JavaScript `s.slice(a, -b)` (for `a, b ≥ 0`): the substring
from index `a` up to index `length - b`, empty when the range is empty. -/
def jsSliceNeg (s : String) (a b : Nat) : String :=
  ⟨(s.data.drop a).take (s.data.length - b - a)⟩

/-- The fence-stripping step of `generateAssessment`
(src/api/generate-assessment.js lines 135-141): trim the raw completion
output, then remove a leading/trailing Markdown code-fence marker. -/
def stripFences (rawContent : String) : String :=
  let t := jsTrim rawContent
  if jsStartsWith t "```json" && jsEndsWith t "```" then
    jsTrim (jsSliceNeg t 7 3)
  else if jsStartsWith t "```" && jsEndsWith t "```" then
    jsTrim (jsSliceNeg t 3 3)
  else
    t

/-- Opening curly brace character (written by code point to keep brace
characters out of the source text). -/
def lbrace : Char := Char.ofNat 123

/-- Closing curly brace character. -/
def rbrace : Char := Char.ofNat 125

/-- Double-quote character. -/
def dquote : Char := Char.ofNat 34

/-- Backslash character. -/
def bslash : Char := Char.ofNat 92

/-- Model of the greedy regex fallback of `generateAssessment`
(line 151): the match of a regex taking the first opening brace which is
followed by some closing brace, through the last closing brace of the
string; `none` when there is no such match. -/
def braceExtractL (cs : List Char) : Option (List Char) :=
  let a := cs.dropWhile (fun c => !(c == lbrace))
  let b := (a.reverse.dropWhile (fun c => !(c == rbrace))).reverse
  if b.isEmpty then none else some b

/-- String-level wrapper of `braceExtractL`. -/
def braceExtract (s : String) : Option String :=
  (braceExtractL s.data).map (fun l => ⟨l⟩)

/-- JSON values, as produced by `JSON.parse`. Numbers are kept as their
source lexeme, which is finer than IEEE-754 evaluation and exact on every
input compared in this development (all comparisons are between parses of
identical substrings). -/
inductive Json where
  | null : Json
  | bool (b : Bool) : Json
  | num (lexeme : String) : Json
  | str (s : String) : Json
  | arr (items : List Json) : Json
  | obj (entries : List (String × Json)) : Json

/-- JSON-grammar whitespace (ECMA-404). -/
def isJsonWs (c : Char) : Bool :=
  [32, 9, 10, 13].contains c.toNat

/-- Drop leading JSON whitespace. -/
def skipWs (cs : List Char) : List Char :=
  cs.dropWhile isJsonWs

/-- ASCII digit test. -/
def isDigitCh (c : Char) : Bool :=
  48 ≤ c.toNat && c.toNat ≤ 57

/-- Lex a JSON number starting at the head of the input, returning the
lexeme and the remaining input. Follows the ECMA-404 number grammar
(optional minus; `0` or a nonzero-led digit run; optional fraction;
optional exponent). -/
def lexNumber (cs : List Char) : Option (List Char × List Char) :=
  let (sign, cs1) :=
    match cs with
    | '-' :: r => (['-'], r)
    | _ => ([], cs)
  match cs1 with
  | [] => none
  | c :: r =>
    if c == '0' then
      some (sign ++ ['0'], r)
    else if isDigitCh c then
      let (ds, rest) := cs1.span isDigitCh
      some (sign ++ ds, rest)
    else none

/-- Lex the optional fraction part (a dot followed by at least one digit);
returns the consumed lexeme part and the rest, consuming nothing when the
input does not start a valid fraction. -/
def lexFrac (cs : List Char) : List Char × List Char :=
  match cs with
  | '.' :: r =>
    match r.span isDigitCh with
    | ([], _) => ([], cs)
    | (ds, rest) => ('.' :: ds, rest)
  | _ => ([], cs)

/-- Lex the optional exponent part (`e`/`E`, optional sign, at least one
digit); consumes nothing when the input does not start a valid exponent. -/
def lexExp (cs : List Char) : List Char × List Char :=
  match cs with
  | c :: r =>
    if c == 'e' || c == 'E' then
      let (sg, r2) :=
        match r with
        | '+' :: r2 => (['+'], r2)
        | '-' :: r2 => (['-'], r2)
        | _ => ([], r)
      match r2.span isDigitCh with
      | ([], _) => ([], cs)
      | (ds, rest) => (c :: (sg ++ ds), rest)
    else ([], cs)
  | [] => ([], cs)

/-- Lex a complete JSON number token. -/
def lexNum (cs : List Char) : Option (List Char × List Char) :=
  match lexNumber cs with
  | none => none
  | some (intPart, r1) =>
    let (fracPart, r2) := lexFrac r1
    let (expPart, r3) := lexExp r2
    some (intPart ++ fracPart ++ expPart, r3)

/-- Value of a hexadecimal digit (code points 48-57, 97-102, 65-70). -/
def hexDigitVal (c : Char) : Option Nat :=
  let n := c.toNat
  if 48 ≤ n && n ≤ 57 then some (n - 48)
  else if 97 ≤ n && n ≤ 102 then some (n - 87)
  else if 65 ≤ n && n ≤ 70 then some (n - 55)
  else none

/-- Parse the body of a JSON string (the opening quote already consumed),
returning the decoded characters and the input after the closing quote.
Unescaped control characters are rejected, as by `JSON.parse`. -/
def parseStrBody : List Char → Option (List Char × List Char)
  | [] => none
  | c :: r =>
    if c == dquote then some ([], r)
    else if c == bslash then
      match r with
      | [] => none
      | e :: r2 =>
        if e == dquote then (parseStrBody r2).map (fun p => (dquote :: p.1, p.2))
        else if e == bslash then (parseStrBody r2).map (fun p => (bslash :: p.1, p.2))
        else if e == '/' then (parseStrBody r2).map (fun p => ('/' :: p.1, p.2))
        else if e == 'b' then (parseStrBody r2).map (fun p => (Char.ofNat 8 :: p.1, p.2))
        else if e == 'f' then (parseStrBody r2).map (fun p => (Char.ofNat 12 :: p.1, p.2))
        else if e == 'n' then (parseStrBody r2).map (fun p => ('\n' :: p.1, p.2))
        else if e == 'r' then (parseStrBody r2).map (fun p => ('\r' :: p.1, p.2))
        else if e == 't' then (parseStrBody r2).map (fun p => ('\t' :: p.1, p.2))
        else if e == 'u' then
          match r2 with
          | h1 :: h2 :: h3 :: h4 :: r3 =>
            match hexDigitVal h1, hexDigitVal h2, hexDigitVal h3, hexDigitVal h4 with
            | some a, some b, some c2, some d =>
              (parseStrBody r3).map
                (fun p => (Char.ofNat (((a * 16 + b) * 16 + c2) * 16 + d) :: p.1, p.2))
            | _, _, _, _ => none
          | _ => none
        else none
    else if c.toNat < 32 then none
    else (parseStrBody r).map (fun p => (c :: p.1, p.2))

mutual

/-- Fuel-indexed recursive-descent parser for a JSON value; models
`JSON.parse` applied to the input with possible trailing content. -/
def parseVal : Nat → List Char → Option (Json × List Char)
  | 0, _ => none
  | fuel + 1, cs =>
    match skipWs cs with
    | 'n' :: 'u' :: 'l' :: 'l' :: r => some (.null, r)
    | 't' :: 'r' :: 'u' :: 'e' :: r => some (.bool true, r)
    | 'f' :: 'a' :: 'l' :: 's' :: 'e' :: r => some (.bool false, r)
    | c :: r =>
      if c == dquote then
        (parseStrBody r).map (fun p => (.str ⟨p.1⟩, p.2))
      else if c == '[' then
        match skipWs r with
        | ']' :: r2 => some (.arr [], r2)
        | r1 => (parseElems fuel r1).map (fun p => (.arr p.1, p.2))
      else if c == lbrace then
        match skipWs r with
        | d :: r2 =>
          if d == rbrace then some (.obj [], r2)
          else (parseMembers fuel (d :: r2)).map (fun p => (.obj p.1, p.2))
        | [] => none
      else
        (lexNum (c :: r)).map (fun p => (.num ⟨p.1⟩, p.2))
    | [] => none

/-- Parse a nonempty comma-separated JSON array tail, up to and including
the closing bracket. -/
def parseElems : Nat → List Char → Option (List Json × List Char)
  | 0, _ => none
  | fuel + 1, cs =>
    match parseVal fuel cs with
    | none => none
    | some (v, r) =>
      match skipWs r with
      | ',' :: r2 => (parseElems fuel r2).map (fun p => (v :: p.1, p.2))
      | ']' :: r2 => some ([v], r2)
      | _ => none

/-- Parse a nonempty JSON object member list, up to and including the
closing brace. -/
def parseMembers : Nat → List Char → Option (List (String × Json) × List Char)
  | 0, _ => none
  | fuel + 1, cs =>
    match skipWs cs with
    | c :: r =>
      if c == dquote then
        match parseStrBody r with
        | none => none
        | some (key, r2) =>
          match skipWs r2 with
          | ':' :: r3 =>
            match parseVal fuel r3 with
            | none => none
            | some (v, r4) =>
              match skipWs r4 with
              | ',' :: r5 => (parseMembers fuel r5).map (fun p => ((⟨key⟩, v) :: p.1, p.2))
              | d :: r5 =>
                if d == rbrace then some ([(⟨key⟩, v)], r5) else none
              | [] => none
          | _ => none
      else none
    | [] => none

end

/-- Executable model of `JSON.parse`: parse a complete JSON text, requiring
only trailing whitespace after the value. -/
def jsonParseImpl (s : String) : Option Json :=
  match parseVal (2 * s.data.length + 2) s.data with
  | none => none
  | some (v, rest) => if (skipWs rest).isEmpty then some v else none

/-- The response-cleaning step of `generateAssessment`
(src/api/generate-assessment.js lines 134-156), parameterised by the
`JSON.parse` function: trim and strip code fences, try to parse; on
failure extract the greedy brace-delimited substring of the RAW content
and parse that; `Except.error` when both fail (every error raised inside
`generateAssessment` is rethrown as the same generation failure). -/
def parseGrokContent (jsonParse : String → Option Json) (rawContent : String) :
    Except Unit Json :=
  match jsonParse (stripFences rawContent) with
  | some j => .ok j
  | none =>
    match braceExtract rawContent with
    | some m =>
      match jsonParse m with
      | some j => .ok j
      | none => .error ()
    | none => .error ()

/-- Single-quote character. -/
def squote : Char := Char.ofNat 39

/-- Backtick character. -/
def btick : Char := Char.ofNat 96

/-- Model of the validator.js `escape` sanitizer used by the
`express-validator` chains: HTML-escape the characters
`& " ' < > / backslash backtick`. (The library performs sequential global
replacements; since no replacement output contains a later-replaced
character, the per-character map is equivalent.) -/
def escapeCharL (c : Char) : List Char :=
  if c == '&' then "&amp;".data
  else if c == dquote then "&quot;".data
  else if c == squote then "&#x27;".data
  else if c == '<' then "&lt;".data
  else if c == '>' then "&gt;".data
  else if c == '/' then "&#x2F;".data
  else if c == bslash then "&#x5C;".data
  else if c == btick then "&#96;".data
  else [c]

/-- String-level validator.js `escape`. -/
def escapeJs (s : String) : String :=
  ⟨(s.data.map escapeCharL).flatten⟩

/-- The `formData` object of the request body. Every field is optional:
a missing JSON key is `none`. `consent` is a JSON boolean. -/
structure FormData where
  name : Option String
  email : Option String
  company : Option String
  company_size : Option String
  it_challenge : Option String
  it_setup : Option String
  consent : Option Bool

/-- The request body of `POST /api/generate-assessment`. -/
structure Request where
  formData : FormData
  verificationToken : Option String
  honeypot : Option String
  recaptchaToken : Option String

/-- The `.trim().isLength(min, max)` validator chain step: a missing field
fails; otherwise the trimmed length must lie in the given range. -/
def validLen (v : Option String) (lo hi : Nat) : Bool :=
  match v with
  | none => false
  | some s => decide (lo ≤ (jsTrim s).length) && decide ((jsTrim s).length ≤ hi)

/-- The `.isIn(sizes)` validator for `formData.company_size`
(src/api/generate-assessment.js line 167). -/
def companySizeOk (v : Option String) : Bool :=
  v == some "1-10" || v == some "11-50" || v == some "51-200" || v == some "200+"

/-- The `.optional().trim().isLength(max 200)` validator for
`formData.it_setup` (line 169). -/
def setupOk (v : Option String) : Bool :=
  match v with
  | none => true
  | some s => decide ((jsTrim s).length ≤ 200)

/-- The `.isEmail()` validator (line 165); the email predicate itself is a
validator.js library function, taken as a parameter. -/
def emailChainOk (isEmail : String → Bool) (v : Option String) : Bool :=
  match v with
  | none => false
  | some s => isEmail s

/-- The `.notEmpty()` validator for `recaptchaToken` (line 172): a missing
field is coerced to the empty string and fails. -/
def tokenNonEmpty (v : Option String) : Bool :=
  match v with
  | none => false
  | some s => !(s == "")

/-- The `express-validator` middleware result (lines 163-172): the list of
field paths of failed validators, in chain order. The handler returns 400
with this list unless it is empty. -/
def validationErrors (isEmail : String → Bool) (fd : FormData)
    (recaptchaToken : Option String) : List String :=
  (if validLen fd.name 1 50 then [] else ["formData.name"]) ++
  (if emailChainOk isEmail fd.email then [] else ["formData.email"]) ++
  (if validLen fd.company 1 100 then [] else ["formData.company"]) ++
  (if companySizeOk fd.company_size then [] else ["formData.company_size"]) ++
  (if validLen fd.it_challenge 1 100 then [] else ["formData.it_challenge"]) ++
  (if setupOk fd.it_setup then [] else ["formData.it_setup"]) ++
  (if fd.consent.isSome then [] else ["formData.consent"]) ++
  (if fd.consent == some true then [] else ["formData.consent"]) ++
  (if tokenNonEmpty recaptchaToken then [] else ["recaptchaToken"])

/-- The sanitizer applied by the `.trim().escape()` chain steps. -/
def sanitizeStr (s : String) : String :=
  escapeJs (jsTrim s)

/-- The sanitized form data the handler body actually reads: the validator
chains mutate `req.body.formData` in place (`trim`/`escape` on the text
fields, `normalizeEmail` on the email, `company_size` and `consent`
untouched). -/
def sanitizeFormData (normalizeEmail : String → String) (fd : FormData) : FormData :=
  { name := fd.name.map sanitizeStr
    email := fd.email.map normalizeEmail
    company := fd.company.map sanitizeStr
    company_size := fd.company_size
    it_challenge := fd.it_challenge.map sanitizeStr
    it_setup := fd.it_setup.map sanitizeStr
    consent := fd.consent }

/-- JavaScript truthiness of an optional string value: `undefined` and the
empty string are falsy. -/
def optTruthy (v : Option String) : Bool :=
  match v with
  | none => false
  | some s => !(s == "")

/-- The `requiredFields` array of the handler (line 197). -/
def requiredFields : List String :=
  ["name", "email", "company", "company_size", "it_challenge", "consent"]

/-- The falsiness test `!formData[field]` used in the missing-fields filter
(line 198). -/
def fieldFalsy (fd : FormData) (f : String) : Bool :=
  if f == "name" then !(optTruthy fd.name)
  else if f == "email" then !(optTruthy fd.email)
  else if f == "company" then !(optTruthy fd.company)
  else if f == "company_size" then !(optTruthy fd.company_size)
  else if f == "it_challenge" then !(optTruthy fd.it_challenge)
  else if f == "consent" then !(fd.consent == some true)
  else false

/-- `requiredFields.filter(field => !formData[field])` (line 198). -/
def missingRequired (fd : FormData) : List String :=
  requiredFields.filter (fieldFalsy fd)

/-- A row of the `subscribers` table as selected by the handler
(`lead_magnet_generated, email`); the lead-magnet map is a JSON object
from lead-magnet name to ISO-8601 timestamp string, possibly null. -/
structure SubscriberRow where
  lead_magnet_generated : Option (List (String × String))
  email : Option String

/-- JavaScript object property read on the (string-valued) lead-magnet
map: first binding of the key. -/
def jsLookup (k : String) : List (String × String) → Option String
  | [] => none
  | (k2, v) :: rest => if k2 == k then some v else jsLookup k rest

/-- JavaScript object property assignment on the lead-magnet map: replace
the binding in place when the key is present, otherwise append it. -/
def jsObjSet : List (String × String) → String → String → List (String × String)
  | [], k, v => [(k, v)]
  | (k2, v2) :: rest, k, v =>
    if k2 == k then (k, v) :: rest else (k2, v2) :: jsObjSet rest k v

/-- The 48-hour comparison of the idempotence check (lines 221-224):
`(now - lastGeneratedTime) / (1000*60*60) <= 48`, over exact rationals
(equivalent to the JS float comparison for all realistic magnitudes). -/
def hoursLe48 (nowMs lastMs : Int) : Bool :=
  decide (((nowMs : ℚ) - (lastMs : ℚ)) / (1000 * 60 * 60) ≤ 48)

/-- The throttle condition of lines 220-226: the map holds a truthy
`IT Assessment` value, it parses as a date (`new Date` of an unparsable
string is Invalid Date, whose NaN comparison is false), and the wall-clock
difference is at most 48 hours. -/
def throttleHit (parseISOms : String → Option Int) (nowMs : Int)
    (mp : List (String × String)) : Bool :=
  match jsLookup "IT Assessment" mp with
  | none => false
  | some ts =>
    if ts == "" then false
    else
      match parseISOms ts with
      | none => false
      | some lastMs => hoursLe48 nowMs lastMs

/-- JSON object property read. -/
def jlookupJ (k : String) : List (String × Json) → Option Json
  | [] => none
  | (k2, v) :: rest => if k2 == k then some v else jlookupJ k rest

/-- The value of `assessment.assessmentSections`; `none` models JavaScript
`undefined` (property access on a non-object JSON value). -/
def sectionsOf (j : Json) : Option Json :=
  match j with
  | .obj kvs => jlookupJ "assessmentSections" kvs
  | _ => none

/-- JavaScript `x[i]` for a JSON value `x` that is neither undefined nor
null: array index, string character access, object numeric-string key;
`undefined` otherwise. -/
def jsIndex (j : Json) (i : Nat) : Option Json :=
  match j with
  | .arr xs => xs.get? i
  | .str s => (s.data.get? i).map (fun c => Json.str ⟨[c]⟩)
  | .obj kvs => jlookupJ (Nat.repr i) kvs
  | _ => none

/-- `formData.it_setup || 'Not provided'` (lines 86 and 258). -/
def jsOrNotProvided (v : Option String) : String :=
  match v with
  | none => "Not provided"
  | some s => if s == "" then "Not provided" else s

/-- The PDFMonkey render-job payload (lines 253-264). -/
structure RenderPayload where
  name : Option String
  company : Option String
  company_size : Option String
  it_challenge : Option String
  it_setup : String
  date : String
  overview : Option Json
  challengeAnalysis : Option Json
  recommendations : Option Json
  nextSteps : Option Json

/-- Build the render-job payload from the sanitized form data and the
`assessmentSections` value of the parsed assessment. -/
def mkPayload (today : String) (fd : FormData) (secs : Json) : RenderPayload :=
  { name := fd.name
    company := fd.company
    company_size := fd.company_size
    it_challenge := fd.it_challenge
    it_setup := jsOrNotProvided fd.it_setup
    date := today
    overview := jsIndex secs 0
    challengeAnalysis := jsIndex secs 1
    recommendations := jsIndex secs 2
    nextSteps := jsIndex secs 3 }

/-- Outbound calls of the handler, in program order. -/
inductive Event where
  | captchaCall : Event
  | subsFetch : Event
  | grokCall : Event
  | upsertCall (email : Option String) (token : Option String)
      (map : List (String × String)) : Event
  | renderSubmit (payload : RenderPayload) : Event
  | sleep (ms : Nat) : Event
  | renderFetch (docId : String) : Event
  | emailSend (recipient : Option String) (url : Option String) : Event

/-- The JSON response bodies the handler can produce. -/
inductive Body where
  | validationErrors (fields : List String) : Body
  | errMsg (msg : String) : Body
  | message (msg : String) : Body
  | success (msg : String) (downloadUrl : Option String) : Body

/-- An HTTP outcome of the handler: status, body, and the trace of
outbound calls made while producing it. -/
structure HResult where
  status : Nat
  body : Body
  trace : List Event

/-- Outcomes of the external services consumed by one request, plus the
JavaScript library/builtin functions the handler calls. `Except.error`
models a thrown/failed call, which the surrounding `try` turns into the
generic 500. -/
structure Env where
  isEmail : String → Bool
  normalizeEmail : String → String
  captcha : Except Unit Bool
  fetchResult : Except Unit (List SubscriberRow)
  parseISOms : String → Option Int
  nowMs : Int
  nowIso : String
  today : String
  grok : Except Unit String
  jsonParse : String → Option Json
  pdfCreate : Except Unit String
  pdfFetch : Except Unit (Option String)
  upsertResult : Except Unit Unit
  mailResult : Except Unit Unit

/-- The generic 500 body (line 313). -/
def failBody : Body := .errMsg "Failed to generate or email assessment"

/-- Whether a JSON value is `null` (indexing `null` throws in JS, like
indexing `undefined`). -/
def isNull (j : Json) : Bool :=
  match j with
  | .null => true
  | _ => false

/-- The pipeline from the Grok call onward (lines 229-310): generation,
timestamp upsert, render-job submission, fixed wait, job fetch, email.
`tr` is the trace accumulated so far. -/
def pipelineTail (env : Env) (fd : FormData) (vt : Option String)
    (mp : List (String × String)) (tr : List Event) : HResult :=
  match env.grok with
  | .error _ => ⟨500, failBody, tr ++ [.grokCall]⟩
  | .ok raw =>
    match parseGrokContent env.jsonParse raw with
    | .error _ => ⟨500, failBody, tr ++ [.grokCall]⟩
    | .ok assessment =>
      let newMap := jsObjSet mp "IT Assessment" env.nowIso
      let tr1 := tr ++ [.grokCall, .upsertCall fd.email vt newMap]
      match env.upsertResult with
      | .error _ => ⟨500, failBody, tr1⟩
      | .ok _ =>
        match sectionsOf assessment with
        | none => ⟨500, failBody, tr1⟩
        | some secs =>
          if isNull secs then ⟨500, failBody, tr1⟩ else
          let tr2 := tr1 ++ [.renderSubmit (mkPayload env.today fd secs)]
          match env.pdfCreate with
          | .error _ => ⟨500, failBody, tr2⟩
          | .ok docId =>
            let tr3 := tr2 ++ [.sleep 20000, .renderFetch docId]
            match env.pdfFetch with
            | .error _ => ⟨500, failBody, tr3⟩
            | .ok url =>
              let tr4 := tr3 ++ [.emailSend fd.email url]
              match env.mailResult with
              | .error _ => ⟨500, failBody, tr4⟩
              | .ok _ =>
                ⟨200, .success "Assessment generated and emailed successfully" url, tr4⟩

/-- The handler body after the validation middleware passed
(lines 181-310): honeypot, reCAPTCHA, redundant required-field check,
subscriber lookup, 48-hour throttle, then `pipelineTail`. -/
def handlerAfterValidation (env : Env) (req : Request) : HResult :=
  let fd := sanitizeFormData env.normalizeEmail req.formData
  if optTruthy req.honeypot then ⟨403, .errMsg "Bot detected.", []⟩
  else
    match env.captcha with
    | .error _ => ⟨500, failBody, [.captchaCall]⟩
    | .ok success =>
      if !success then ⟨403, .errMsg "Bot detected, please try again.", [.captchaCall]⟩
      else
        let missing := missingRequired fd
        if !missing.isEmpty || !(optTruthy req.verificationToken) then
          ⟨400, .errMsg ("Missing required fields: " ++
            String.intercalate ", " missing ++ " or verificationToken"),
           [.captchaCall]⟩
        else if !(fd.consent == some true) then
          ⟨400, .errMsg "Consent is required.", [.captchaCall]⟩
        else
          match env.fetchResult with
          | .error _ => ⟨500, failBody, [.captchaCall, .subsFetch]⟩
          | .ok rows =>
            let mp := (rows.head?.bind (fun r => r.lead_magnet_generated)).getD []
            if throttleHit env.parseISOms env.nowMs mp then
              ⟨200, .message "Assessment already generated within 48 hours",
               [.captchaCall, .subsFetch]⟩
            else
              pipelineTail env fd req.verificationToken mp [.captchaCall, .subsFetch]

/-- The full `POST /api/generate-assessment` handler: a 400 with the
structured error list when the validation middleware reports errors,
otherwise the handler body. -/
def handler (env : Env) (req : Request) : HResult :=
  let errs := validationErrors env.isEmail req.formData req.recaptchaToken
  if errs.isEmpty then handlerAfterValidation env req
  else ⟨400, .validationErrors errs, []⟩

/-- A character list containing neither brace character. -/
def braceFree (cs : List Char) : Bool :=
  cs.all (fun c => !(c == lbrace) && !(c == rbrace))

/-- The lead-magnet map taken from the first fetched subscriber row
(`leadMagnets?.[0]?.lead_magnet_generated || ` empty object, line 218). -/
def fetchedMap (rows : List SubscriberRow) : List (String × String) :=
  (rows.head?.bind (fun r => r.lead_magnet_generated)).getD []

/-- Concrete valid form data, for evaluating the handler. -/
def fdOk : FormData :=
  { name := some "Al", email := some "a@b.c", company := some "Acme",
    company_size := some "1-10", it_challenge := some "security",
    it_setup := none, consent := some true }

/-- Concrete valid request body. -/
def reqOk : Request :=
  { formData := fdOk, verificationToken := some "vt",
    honeypot := none, recaptchaToken := some "tok" }

/-- Concrete well-formed assessment document. -/
def docOk : Json :=
  Json.obj [("assessmentSections",
    Json.arr [Json.str "s0", Json.str "s1", Json.str "s2", Json.str "s3"])]

/-- Concrete environment in which every external service succeeds and no
prior lead magnet exists. -/
def envOk : Env :=
  { isEmail := fun _ => true
    normalizeEmail := fun s => s
    captcha := .ok true
    fetchResult := .ok []
    parseISOms := fun _ => some 0
    nowMs := 0
    nowIso := "2026-01-02T00:00:00.000Z"
    today := "2026-01-02"
    grok := .ok "raw"
    jsonParse := fun _ => some docOk
    pdfCreate := .ok "doc-1"
    pdfFetch := .ok (some "url-1")
    upsertResult := .ok ()
    mailResult := .ok () }

/-- Environment with a subscriber record generated 48 hours ago. -/
def envFresh : Env :=
  { envOk with
    fetchResult := .ok [{ lead_magnet_generated := some [("IT Assessment", "T")],
                          email := some "a@b.c" }]
    parseISOms := fun _ => some 0
    nowMs := 48 * 3600 * 1000 }

/-- Environment whose completion output is unparsable and brace-free. -/
def envBadJson : Env :=
  { envOk with grok := .ok "hello", jsonParse := fun _ => none }

/-- Environment in which the render-job submission fails. -/
def envRenderFail : Env :=
  { envOk with pdfCreate := .error () }

/-- Environment in which the fetched render job carries no download URL. -/
def envNoUrl : Env :=
  { envOk with pdfFetch := .ok none }

/-- Environment with a stale prior record carrying several lead magnets
(the stored timestamp does not parse, so the throttle does not hit). -/
def envMultiMagnet : Env :=
  { envOk with
    fetchResult := .ok [{ lead_magnet_generated :=
                            some [("eBook", "E"), ("IT Assessment", "old")],
                          email := some "a@b.c" }]
    parseISOms := fun _ => none }

/-- Request with a missing name field. -/
def reqNoName : Request :=
  { reqOk with formData := { fdOk with name := none } }

/-- Request carrying a honeypot value. -/
def reqBot : Request :=
  { reqOk with honeypot := some "x" }

/-- Environment whose CAPTCHA verification reports failure. -/
def envBotCaptcha : Env :=
  { envOk with captcha := .ok false }

theorem if_nil_true (b : Bool) (x : String)
    (h : (if b then [] else [x]) = ([] : List String)) : b = true := by
  cases b
  · simp at h
  · rfl

theorem validation_facts (ie : String → Bool) (fd : FormData) (rt : Option String)
    (h : validationErrors ie fd rt = []) :
    validLen fd.name 1 50 = true ∧ emailChainOk ie fd.email = true ∧
    validLen fd.company 1 100 = true ∧ companySizeOk fd.company_size = true ∧
    validLen fd.it_challenge 1 100 = true ∧ (fd.consent == some true) = true ∧
    tokenNonEmpty rt = true := by
  unfold validationErrors at h
  simp only [List.append_eq_nil] at h
  obtain ⟨⟨⟨⟨⟨⟨⟨⟨h1, h2⟩, h3⟩, h4⟩, h5⟩, _⟩, _⟩, h8⟩, h9⟩ := h
  exact ⟨if_nil_true _ _ h1, if_nil_true _ _ h2, if_nil_true _ _ h3,
    if_nil_true _ _ h4, if_nil_true _ _ h5, if_nil_true _ _ h8, if_nil_true _ _ h9⟩

theorem escapeCharL_ne_nil (c : Char) : escapeCharL c ≠ [] := by
  unfold escapeCharL
  split
  · decide
  split
  · decide
  split
  · decide
  split
  · decide
  split
  · decide
  split
  · decide
  split
  · decide
  split
  · decide
  · simp

theorem escapeJs_ne_empty (s : String) (h : s.data ≠ []) : escapeJs s ≠ "" := by
  unfold escapeJs
  intro hc
  have hdata : (s.data.map escapeCharL).flatten = ([] : List Char) := by
    simpa using congrArg String.data hc
  rcases hs : s.data with _ | ⟨c, rest⟩
  · exact h hs
  · rw [hs] at hdata
    simp only [List.map_cons, List.flatten_cons, List.append_eq_nil] at hdata
    exact escapeCharL_ne_nil c hdata.1

theorem optTruthy_sanitize_of_validLen (v : Option String) (hi : Nat)
    (h : validLen v 1 hi = true) : optTruthy (v.map sanitizeStr) = true := by
  rcases v with _ | s
  · simp [validLen] at h
  · simp only [validLen, Bool.and_eq_true, decide_eq_true_eq] at h
    have hdat : (jsTrim s).data ≠ [] := by
      intro hnil
      have : (jsTrim s).length = 0 := by simp [String.length, hnil]
      omega
    have hne := escapeJs_ne_empty (jsTrim s) hdat
    simp [optTruthy, sanitizeStr, beq_iff_eq]
    exact hne

theorem missingRequired_nil (ie : String → Bool) (nm : String → String) (fd : FormData)
    (rt : Option String) (hv : validationErrors ie fd rt = [])
    (e : String) (he : fd.email = some e) (hne : nm e ≠ "") :
    missingRequired (sanitizeFormData nm fd) = [] := by
  obtain ⟨h1, _, h3, h4, h5, h6, _⟩ := validation_facts ie fd rt hv
  have hn : optTruthy ((sanitizeFormData nm fd).name) = true := by
    simpa [sanitizeFormData] using optTruthy_sanitize_of_validLen fd.name 50 h1
  have hco : optTruthy ((sanitizeFormData nm fd).company) = true := by
    simpa [sanitizeFormData] using optTruthy_sanitize_of_validLen fd.company 100 h3
  have hch : optTruthy ((sanitizeFormData nm fd).it_challenge) = true := by
    simpa [sanitizeFormData] using optTruthy_sanitize_of_validLen fd.it_challenge 100 h5
  have hm : optTruthy ((sanitizeFormData nm fd).email) = true := by
    simp [sanitizeFormData, he, optTruthy, beq_iff_eq, hne]
  have hs : optTruthy ((sanitizeFormData nm fd).company_size) = true := by
    simp only [companySizeOk, Bool.or_eq_true, beq_iff_eq] at h4
    rcases h4 with ((h4 | h4) | h4) | h4 <;> simp [sanitizeFormData, h4, optTruthy]
  have hc : ((sanitizeFormData nm fd).consent == some true) = true := by
    simpa [sanitizeFormData] using h6
  unfold missingRequired requiredFields
  simp [List.filter_cons, fieldFalsy, hn, hm, hco, hs, hch, hc]

theorem handler_reach_throttle (env : Env) (req : Request) (e : String)
    (rows : List SubscriberRow)
    (hv : validationErrors env.isEmail req.formData req.recaptchaToken = [])
    (hh : optTruthy req.honeypot = false)
    (hc : env.captcha = .ok true)
    (he : req.formData.email = some e)
    (hne : env.normalizeEmail e ≠ "")
    (hvt : optTruthy req.verificationToken = true)
    (hrows : env.fetchResult = .ok rows) :
    handler env req =
      if throttleHit env.parseISOms env.nowMs (fetchedMap rows) then
        ⟨200, .message "Assessment already generated within 48 hours",
         [.captchaCall, .subsFetch]⟩
      else
        pipelineTail env (sanitizeFormData env.normalizeEmail req.formData)
          req.verificationToken (fetchedMap rows) [.captchaCall, .subsFetch] := by
  have hcons : (req.formData.consent == some true) = true :=
    (validation_facts _ _ _ hv).2.2.2.2.2.1
  have hmiss := missingRequired_nil env.isEmail env.normalizeEmail req.formData
    req.recaptchaToken hv e he hne
  unfold handler
  rw [hv]
  simp only [List.isEmpty_nil, if_true]
  unfold handlerAfterValidation
  rw [hh, hc]
  simp only [Bool.not_true, Bool.false_eq_true, if_false, Bool.not_false, if_true]
  rw [hmiss, hvt]
  simp only [List.isEmpty_nil, Bool.not_true, Bool.or_self, Bool.false_eq_true, if_false]
  simp only [sanitizeFormData] at hcons ⊢
  rw [hcons]
  simp only [Bool.not_true, Bool.false_eq_true, if_false]
  rw [hrows]
  rfl

/-- C2: for every submission in which a required field (name, email,
company, company_size, it_challenge, consent) is missing or fails its
shape/length/enum constraint, or consent is not true, the handler returns
HTTP 400 with a nonempty structured error list and the trace is empty: no
CAPTCHA, store, completion, render, or mail call is made. -/
theorem C2_invalid_rejected (env : Env) (req : Request)
    (h : validLen req.formData.name 1 50 = false ∨
         emailChainOk env.isEmail req.formData.email = false ∨
         validLen req.formData.company 1 100 = false ∨
         companySizeOk req.formData.company_size = false ∨
         validLen req.formData.it_challenge 1 100 = false ∨
         req.formData.consent ≠ some true) :
    ∃ errs, errs ≠ [] ∧
      handler env req = ⟨400, Body.validationErrors errs, []⟩ := by
  have hne : validationErrors env.isEmail req.formData req.recaptchaToken ≠ [] := by
    intro hnil
    obtain ⟨h1, h2, h3, h4, h5, h6, _⟩ := validation_facts _ _ _ hnil
    rcases h with h | h | h | h | h | h
    · rw [h] at h1; exact Bool.noConfusion h1
    · rw [h] at h2; exact Bool.noConfusion h2
    · rw [h] at h3; exact Bool.noConfusion h3
    · rw [h] at h4; exact Bool.noConfusion h4
    · rw [h] at h5; exact Bool.noConfusion h5
    · exact h (eq_of_beq h6)
  refine ⟨_, hne, ?_⟩
  unfold handler
  cases hl : validationErrors env.isEmail req.formData req.recaptchaToken with
  | nil => exact absurd hl hne
  | cons a l => simp [List.isEmpty]

/-- C2 witness: a request with a missing name is rejected with 400,
a nonempty error list, and an empty call trace. -/
theorem C2_witness :
    ∃ errs, errs ≠ [] ∧
      handler envOk reqNoName = ⟨400, Body.validationErrors errs, []⟩ :=
  C2_invalid_rejected envOk reqNoName (Or.inl rfl)

/-- C3: every submission that passes validation and carries a non-empty
honeypot value is answered 403 with the bot message and an empty trace: the
CAPTCHA service and every later pipeline step are never called. -/
theorem C3_honeypot_rejected (env : Env) (req : Request) (hp : String)
    (hv : validationErrors env.isEmail req.formData req.recaptchaToken = [])
    (hhp : req.honeypot = some hp) (hne : hp ≠ "") :
    handler env req = ⟨403, .errMsg "Bot detected.", []⟩ := by
  unfold handler
  rw [hv]
  simp only [List.isEmpty_nil, if_true]
  unfold handlerAfterValidation
  rw [hhp]
  simp [optTruthy, beq_iff_eq, hne]

/-- C3 witness: a valid submission with honeypot value "x" yields 403 and
no outbound calls. -/
theorem C3_witness :
    handler envOk reqBot = ⟨403, .errMsg "Bot detected.", []⟩ :=
  C3_honeypot_rejected envOk reqBot "x" rfl rfl (by decide)

/-- C4: every submission that passes validation and the honeypot check but
whose CAPTCHA verification returns success=false is answered 403 with the
retry message, the trace holding only the CAPTCHA call: the completion API
is never invoked. -/
theorem C4_captcha_rejected (env : Env) (req : Request)
    (hv : validationErrors env.isEmail req.formData req.recaptchaToken = [])
    (hh : optTruthy req.honeypot = false)
    (hc : env.captcha = .ok false) :
    handler env req =
      ⟨403, .errMsg "Bot detected, please try again.", [.captchaCall]⟩ := by
  unfold handler
  rw [hv]
  simp only [List.isEmpty_nil, if_true]
  unfold handlerAfterValidation
  rw [hh, hc]
  simp

/-- C4 witness: a valid human-free submission with failing CAPTCHA yields
403 after exactly the CAPTCHA call. -/
theorem C4_witness :
    handler envBotCaptcha reqOk =
      ⟨403, .errMsg "Bot detected, please try again.", [.captchaCall]⟩ :=
  C4_captcha_rejected envBotCaptcha reqOk rfl rfl rfl

theorem grokCall_mem_pipelineTail (env : Env) (fd : FormData) (vt : Option String)
    (mp : List (String × String)) (tr : List Event) :
    Event.grokCall ∈ (pipelineTail env fd vt mp tr).trace := by
  unfold pipelineTail
  split
  · simp
  · split
    · simp
    · split
      · simp
      · split
        · simp
        · split
          · simp
          · split
            · simp
            · split
              · simp
              · split <;> simp

theorem upsert_mem_pipelineTail (env : Env) (fd : FormData) (vt : Option String)
    (mp : List (String × String)) (tr : List Event) (raw : String) (doc : Json)
    (hg : env.grok = .ok raw) (hp : parseGrokContent env.jsonParse raw = .ok doc) :
    Event.upsertCall fd.email vt (jsObjSet mp "IT Assessment" env.nowIso) ∈
      (pipelineTail env fd vt mp tr).trace := by
  unfold pipelineTail
  simp only [hg, hp]
  split
  · simp
  · split
    · simp
    · split
      · simp
      · split
        · simp
        · split
          · simp
          · split <;> simp

theorem jsObjSet_frame (m : List (String × String)) (k v k2 : String) (h : k2 ≠ k) :
    jsLookup k2 (jsObjSet m k v) = jsLookup k2 m := by
  induction m with
  | nil => simp [jsObjSet, jsLookup, beq_iff_eq, Ne.symm h]
  | cons p rest ih =>
    obtain ⟨k3, v3⟩ := p
    by_cases hk : k3 = k
    · simp [jsObjSet, beq_iff_eq, hk, jsLookup, Ne.symm h]
    · simp [jsObjSet, beq_iff_eq, hk, jsLookup, ih]

theorem jsObjSet_self (m : List (String × String)) (k v : String) :
    jsLookup k (jsObjSet m k v) = some v := by
  induction m with
  | nil => simp [jsObjSet, jsLookup]
  | cons p rest ih =>
    obtain ⟨k3, v3⟩ := p
    by_cases hk : k3 = k
    · simp [jsObjSet, beq_iff_eq, hk, jsLookup]
    · simp [jsObjSet, beq_iff_eq, hk, jsLookup, ih]

/-- C1: first conjunct: a valid, human request whose stored `IT Assessment`
timestamp is within 48 hours (signed wall-clock difference, as computed by
the code) is answered 200 with the already-generated message after exactly
the CAPTCHA call and the subscriber fetch — no completion call, no render
job, no email. Second conjunct: when the timestamp is absent, or present,
parsable and strictly older than 48 hours, the pipeline proceeds: the
completion API is called. -/
theorem C1_throttle_window :
    (∀ (env : Env) (req : Request) (e ts : String) (rows : List SubscriberRow)
        (lastMs : Int),
      validationErrors env.isEmail req.formData req.recaptchaToken = [] →
      optTruthy req.honeypot = false →
      env.captcha = .ok true →
      req.formData.email = some e →
      env.normalizeEmail e ≠ "" →
      optTruthy req.verificationToken = true →
      env.fetchResult = .ok rows →
      jsLookup "IT Assessment" (fetchedMap rows) = some ts →
      ts ≠ "" →
      env.parseISOms ts = some lastMs →
      ((env.nowMs : ℚ) - (lastMs : ℚ)) / (1000 * 60 * 60) ≤ 48 →
      handler env req =
        ⟨200, .message "Assessment already generated within 48 hours",
         [.captchaCall, .subsFetch]⟩) ∧
    (∀ (env : Env) (req : Request) (e : String) (rows : List SubscriberRow),
      validationErrors env.isEmail req.formData req.recaptchaToken = [] →
      optTruthy req.honeypot = false →
      env.captcha = .ok true →
      req.formData.email = some e →
      env.normalizeEmail e ≠ "" →
      optTruthy req.verificationToken = true →
      env.fetchResult = .ok rows →
      (jsLookup "IT Assessment" (fetchedMap rows) = none ∨
        ∃ ts lastMs, jsLookup "IT Assessment" (fetchedMap rows) = some ts ∧
          ts ≠ "" ∧ env.parseISOms ts = some lastMs ∧
          48 < ((env.nowMs : ℚ) - (lastMs : ℚ)) / (1000 * 60 * 60)) →
      Event.grokCall ∈ (handler env req).trace) := by
  constructor
  · intro env req e ts rows lastMs hv hh hc he hne hvt hrows hts htne hpar hle
    rw [handler_reach_throttle env req e rows hv hh hc he hne hvt hrows]
    have hthr : throttleHit env.parseISOms env.nowMs (fetchedMap rows) = true := by
      unfold throttleHit
      rw [hts]
      simp only [beq_iff_eq, htne, if_false]
      rw [hpar]
      simp [hoursLe48, hle]
    rw [hthr]
    simp
  · intro env req e rows hv hh hc he hne hvt hrows hcase
    rw [handler_reach_throttle env req e rows hv hh hc he hne hvt hrows]
    have hthr : throttleHit env.parseISOms env.nowMs (fetchedMap rows) = false := by
      unfold throttleHit
      rcases hcase with hlk | ⟨ts, lastMs, hts, htne, hpar, hgt⟩
      · rw [hlk]
      · rw [hts]
        simp only [beq_iff_eq, htne, if_false]
        rw [hpar]
        simp [hoursLe48, not_le.mpr hgt]
    rw [hthr]
    simp only [Bool.false_eq_true, if_false]
    exact grokCall_mem_pipelineTail env _ _ _ _

/-- C1 witness: with a record written exactly 48 hours ago the handler
short-circuits with the already-generated message; with no record at all
the completion API is called. -/
theorem C1_witness :
    handler envFresh reqOk =
      ⟨200, .message "Assessment already generated within 48 hours",
       [.captchaCall, .subsFetch]⟩ ∧
    Event.grokCall ∈ (handler envOk reqOk).trace :=
  ⟨C1_throttle_window.1 envFresh reqOk "a@b.c" "T" _ 0 rfl rfl rfl rfl (by decide)
      rfl rfl rfl (by decide) rfl (by norm_num [envFresh, envOk]),
   C1_throttle_window.2 envOk reqOk "a@b.c" [] rfl rfl rfl rfl (by decide) rfl rfl
      (Or.inl rfl)⟩

/-- C10: every request that reaches the state-updater step upserts exactly
the fetched lead-magnet map with the `IT Assessment` key set to the fresh
timestamp: every other key of the fetched map is preserved unchanged, and
the written `IT Assessment` value is the new timestamp. -/
theorem C10_upsert_frame (env : Env) (req : Request) (e : String)
    (rows : List SubscriberRow) (raw : String) (doc : Json)
    (hv : validationErrors env.isEmail req.formData req.recaptchaToken = [])
    (hh : optTruthy req.honeypot = false)
    (hc : env.captcha = .ok true)
    (he : req.formData.email = some e)
    (hne : env.normalizeEmail e ≠ "")
    (hvt : optTruthy req.verificationToken = true)
    (hrows : env.fetchResult = .ok rows)
    (hthr : throttleHit env.parseISOms env.nowMs (fetchedMap rows) = false)
    (hg : env.grok = .ok raw)
    (hp : parseGrokContent env.jsonParse raw = .ok doc) :
    (Event.upsertCall (sanitizeFormData env.normalizeEmail req.formData).email
        req.verificationToken
        (jsObjSet (fetchedMap rows) "IT Assessment" env.nowIso) ∈
      (handler env req).trace) ∧
    (∀ k, k ≠ "IT Assessment" →
      jsLookup k (jsObjSet (fetchedMap rows) "IT Assessment" env.nowIso) =
        jsLookup k (fetchedMap rows)) ∧
    jsLookup "IT Assessment"
        (jsObjSet (fetchedMap rows) "IT Assessment" env.nowIso) =
      some env.nowIso := by
  refine ⟨?_, fun k hk => jsObjSet_frame _ _ _ _ hk, jsObjSet_self _ _ _⟩
  rw [handler_reach_throttle env req e rows hv hh hc he hne hvt hrows, hthr]
  simp only [Bool.false_eq_true, if_false]
  exact upsert_mem_pipelineTail env _ _ _ _ raw doc hg hp

/-- C10 witness: with a fetched map holding an `eBook` entry and a stale
`IT Assessment` entry, the upserted map keeps the `eBook` entry unchanged
and replaces only the `IT Assessment` timestamp. -/
theorem C10_witness :
    (Event.upsertCall (some "a@b.c") (some "vt")
        (jsObjSet [("eBook", "E"), ("IT Assessment", "old")] "IT Assessment"
          "2026-01-02T00:00:00.000Z") ∈
      (handler envMultiMagnet reqOk).trace) ∧
    jsLookup "eBook"
        (jsObjSet [("eBook", "E"), ("IT Assessment", "old")] "IT Assessment"
          "2026-01-02T00:00:00.000Z") =
      jsLookup "eBook" [("eBook", "E"), ("IT Assessment", "old")] ∧
    jsLookup "IT Assessment"
        (jsObjSet [("eBook", "E"), ("IT Assessment", "old")] "IT Assessment"
          "2026-01-02T00:00:00.000Z") =
      some "2026-01-02T00:00:00.000Z" :=
  let h := C10_upsert_frame envMultiMagnet reqOk "a@b.c"
    [{ lead_magnet_generated := some [("eBook", "E"), ("IT Assessment", "old")],
       email := some "a@b.c" }] "raw" docOk
    rfl rfl rfl rfl (by decide) rfl rfl rfl rfl rfl
  ⟨h.1, h.2.1 "eBook" (by decide), h.2.2⟩

/-- C5: for every valid, human-verified request that is not throttled and
whose downstream services all succeed (with a well-formed assessment), the
handler performs exactly one completion call, one upsert writing the fresh
timestamp, one render-job submission, one job fetch, and one email — in
that order, as the trace equality shows — and returns HTTP 200 with the
success message and the download URL. -/
theorem C5_success_path (env : Env) (req : Request) (e : String)
    (rows : List SubscriberRow) (raw : String) (doc secs : Json) (docId : String)
    (url : Option String)
    (hv : validationErrors env.isEmail req.formData req.recaptchaToken = [])
    (hh : optTruthy req.honeypot = false)
    (hc : env.captcha = .ok true)
    (he : req.formData.email = some e)
    (hne : env.normalizeEmail e ≠ "")
    (hvt : optTruthy req.verificationToken = true)
    (hrows : env.fetchResult = .ok rows)
    (hthr : throttleHit env.parseISOms env.nowMs (fetchedMap rows) = false)
    (hg : env.grok = .ok raw)
    (hp : parseGrokContent env.jsonParse raw = .ok doc)
    (hup : env.upsertResult = .ok ())
    (hsec : sectionsOf doc = some secs)
    (hnn : isNull secs = false)
    (hpdf : env.pdfCreate = .ok docId)
    (hfetch : env.pdfFetch = .ok url)
    (hmail : env.mailResult = .ok ()) :
    handler env req =
      ⟨200, .success "Assessment generated and emailed successfully" url,
       [.captchaCall, .subsFetch, .grokCall,
        .upsertCall (sanitizeFormData env.normalizeEmail req.formData).email
          req.verificationToken
          (jsObjSet (fetchedMap rows) "IT Assessment" env.nowIso),
        .renderSubmit (mkPayload env.today
          (sanitizeFormData env.normalizeEmail req.formData) secs),
        .sleep 20000, .renderFetch docId,
        .emailSend (sanitizeFormData env.normalizeEmail req.formData).email url]⟩ ∧
    jsLookup "IT Assessment"
        (jsObjSet (fetchedMap rows) "IT Assessment" env.nowIso) =
      some env.nowIso := by
  refine ⟨?_, jsObjSet_self _ _ _⟩
  rw [handler_reach_throttle env req e rows hv hh hc he hne hvt hrows, hthr]
  simp only [Bool.false_eq_true, if_false]
  unfold pipelineTail
  simp only [hg, hp, hup, hsec, hnn, hpdf, hfetch, hmail, if_false]
  simp

/-- C5 witness: the concrete all-success run produces exactly the expected
response and the expected single-call trace. -/
theorem C5_witness :
    handler envOk reqOk =
      ⟨200, .success "Assessment generated and emailed successfully" (some "url-1"),
       [.captchaCall, .subsFetch, .grokCall,
        .upsertCall (some "a@b.c") (some "vt")
          [("IT Assessment", "2026-01-02T00:00:00.000Z")],
        .renderSubmit
          { name := some "Al", company := some "Acme", company_size := some "1-10",
            it_challenge := some "security", it_setup := "Not provided",
            date := "2026-01-02", overview := some (Json.str "s0"),
            challengeAnalysis := some (Json.str "s1"),
            recommendations := some (Json.str "s2"),
            nextSteps := some (Json.str "s3") },
        .sleep 20000, .renderFetch "doc-1",
        .emailSend (some "a@b.c") (some "url-1")]⟩ ∧
    jsLookup "IT Assessment"
        (jsObjSet (fetchedMap []) "IT Assessment" "2026-01-02T00:00:00.000Z") =
      some "2026-01-02T00:00:00.000Z" :=
  C5_success_path envOk reqOk "a@b.c" [] "raw" docOk
    (Json.arr [Json.str "s0", Json.str "s1", Json.str "s2", Json.str "s3"])
    "doc-1" (some "url-1") rfl rfl rfl rfl (by decide) rfl rfl rfl rfl rfl rfl rfl
    rfl rfl rfl rfl

/-- C7: for every valid, human-verified, un-throttled request whose
completion output fails to parse after fence stripping and contains no
brace-delimited substring, the handler returns the generic 500 and the
trace stops at the completion call: no render job is submitted and no
email is sent. -/
theorem C7_unparsable_500 (env : Env) (req : Request) (e : String)
    (rows : List SubscriberRow) (raw : String)
    (hv : validationErrors env.isEmail req.formData req.recaptchaToken = [])
    (hh : optTruthy req.honeypot = false)
    (hc : env.captcha = .ok true)
    (he : req.formData.email = some e)
    (hne : env.normalizeEmail e ≠ "")
    (hvt : optTruthy req.verificationToken = true)
    (hrows : env.fetchResult = .ok rows)
    (hthr : throttleHit env.parseISOms env.nowMs (fetchedMap rows) = false)
    (hg : env.grok = .ok raw)
    (hnp : env.jsonParse (stripFences raw) = none)
    (hbe : braceExtract raw = none) :
    handler env req =
      ⟨500, failBody, [.captchaCall, .subsFetch, .grokCall]⟩ := by
  rw [handler_reach_throttle env req e rows hv hh hc he hne hvt hrows, hthr]
  simp only [Bool.false_eq_true, if_false]
  have hperr : parseGrokContent env.jsonParse raw = .error () := by
    unfold parseGrokContent
    simp only [hnp, hbe]
  unfold pipelineTail
  simp only [hg, hperr]
  simp

/-- C7 witness: the completion output "hello" (unparsable, brace-free)
yields the generic 500 after exactly the CAPTCHA call, the subscriber
fetch and the completion call. -/
theorem C7_witness :
    handler envBadJson reqOk =
      ⟨500, failBody, [.captchaCall, .subsFetch, .grokCall]⟩ :=
  C7_unparsable_500 envBadJson reqOk "a@b.c" [] "hello" rfl rfl rfl rfl
    (by decide) rfl rfl rfl rfl rfl rfl

/-- C8: the timestamp upsert happens strictly before the render job is
submitted or the email is sent (visible in each trace), and a subsequent
failure of the render submission, the job fetch, or the email send yields
HTTP 500 while the advanced timestamp stays written: the upsert call with
the fresh `IT Assessment` value is already in the trace and nothing rolls
it back. -/
theorem C8_no_rollback (env : Env) (req : Request) (e : String)
    (rows : List SubscriberRow) (raw : String) (doc secs : Json)
    (hv : validationErrors env.isEmail req.formData req.recaptchaToken = [])
    (hh : optTruthy req.honeypot = false)
    (hc : env.captcha = .ok true)
    (he : req.formData.email = some e)
    (hne : env.normalizeEmail e ≠ "")
    (hvt : optTruthy req.verificationToken = true)
    (hrows : env.fetchResult = .ok rows)
    (hthr : throttleHit env.parseISOms env.nowMs (fetchedMap rows) = false)
    (hg : env.grok = .ok raw)
    (hp : parseGrokContent env.jsonParse raw = .ok doc)
    (hup : env.upsertResult = .ok ())
    (hsec : sectionsOf doc = some secs)
    (hnn : isNull secs = false) :
    (env.pdfCreate = .error () →
      handler env req =
        ⟨500, failBody,
         [.captchaCall, .subsFetch, .grokCall,
          .upsertCall (sanitizeFormData env.normalizeEmail req.formData).email
            req.verificationToken
            (jsObjSet (fetchedMap rows) "IT Assessment" env.nowIso),
          .renderSubmit (mkPayload env.today
            (sanitizeFormData env.normalizeEmail req.formData) secs)]⟩) ∧
    (∀ docId, env.pdfCreate = .ok docId → env.pdfFetch = .error () →
      handler env req =
        ⟨500, failBody,
         [.captchaCall, .subsFetch, .grokCall,
          .upsertCall (sanitizeFormData env.normalizeEmail req.formData).email
            req.verificationToken
            (jsObjSet (fetchedMap rows) "IT Assessment" env.nowIso),
          .renderSubmit (mkPayload env.today
            (sanitizeFormData env.normalizeEmail req.formData) secs),
          .sleep 20000, .renderFetch docId]⟩) ∧
    (∀ docId url, env.pdfCreate = .ok docId → env.pdfFetch = .ok url →
      env.mailResult = .error () →
      handler env req =
        ⟨500, failBody,
         [.captchaCall, .subsFetch, .grokCall,
          .upsertCall (sanitizeFormData env.normalizeEmail req.formData).email
            req.verificationToken
            (jsObjSet (fetchedMap rows) "IT Assessment" env.nowIso),
          .renderSubmit (mkPayload env.today
            (sanitizeFormData env.normalizeEmail req.formData) secs),
          .sleep 20000, .renderFetch docId,
          .emailSend (sanitizeFormData env.normalizeEmail req.formData).email
            url]⟩) ∧
    jsLookup "IT Assessment"
        (jsObjSet (fetchedMap rows) "IT Assessment" env.nowIso) =
      some env.nowIso := by
  refine ⟨?_, ?_, ?_, jsObjSet_self _ _ _⟩
  · intro hpdf
    rw [handler_reach_throttle env req e rows hv hh hc he hne hvt hrows, hthr]
    simp only [Bool.false_eq_true, if_false]
    unfold pipelineTail
    simp only [hg, hp, hup, hsec, hnn, hpdf, if_false]
    simp
  · intro docId hpdf hfetch
    rw [handler_reach_throttle env req e rows hv hh hc he hne hvt hrows, hthr]
    simp only [Bool.false_eq_true, if_false]
    unfold pipelineTail
    simp only [hg, hp, hup, hsec, hnn, hpdf, hfetch, if_false]
    simp
  · intro docId url hpdf hfetch hmail
    rw [handler_reach_throttle env req e rows hv hh hc he hne hvt hrows, hthr]
    simp only [Bool.false_eq_true, if_false]
    unfold pipelineTail
    simp only [hg, hp, hup, hsec, hnn, hpdf, hfetch, hmail, if_false]
    simp

/-- C8 witness: with the render submission failing, the response is the
generic 500 and the trace already holds the upsert with the fresh
timestamp, placed before the render submission. -/
theorem C8_witness :
    handler envRenderFail reqOk =
      ⟨500, failBody,
       [.captchaCall, .subsFetch, .grokCall,
        .upsertCall (some "a@b.c") (some "vt")
          [("IT Assessment", "2026-01-02T00:00:00.000Z")],
        .renderSubmit
          { name := some "Al", company := some "Acme", company_size := some "1-10",
            it_challenge := some "security", it_setup := "Not provided",
            date := "2026-01-02", overview := some (Json.str "s0"),
            challengeAnalysis := some (Json.str "s1"),
            recommendations := some (Json.str "s2"),
            nextSteps := some (Json.str "s3") }]⟩ :=
  (C8_no_rollback envRenderFail reqOk "a@b.c" [] "raw" docOk
    (Json.arr [Json.str "s0", Json.str "s1", Json.str "s2", Json.str "s3"])
    rfl rfl rfl rfl (by decide) rfl rfl rfl rfl rfl rfl rfl rfl).1 rfl

/-- C9: after submitting the render job the handler performs exactly one
fixed 20000 ms wait and one job fetch, with no status check on the fetched
job: for an arbitrary fetched `download_url` value — including `none`
(undefined) and the empty string — the email is still sent with that value
and the handler returns HTTP 200 carrying it as `downloadUrl`. -/
theorem C9_blind_wait (env : Env) (req : Request) (e : String)
    (rows : List SubscriberRow) (raw : String) (doc secs : Json) (docId : String)
    (url : Option String)
    (hv : validationErrors env.isEmail req.formData req.recaptchaToken = [])
    (hh : optTruthy req.honeypot = false)
    (hc : env.captcha = .ok true)
    (he : req.formData.email = some e)
    (hne : env.normalizeEmail e ≠ "")
    (hvt : optTruthy req.verificationToken = true)
    (hrows : env.fetchResult = .ok rows)
    (hthr : throttleHit env.parseISOms env.nowMs (fetchedMap rows) = false)
    (hg : env.grok = .ok raw)
    (hp : parseGrokContent env.jsonParse raw = .ok doc)
    (hup : env.upsertResult = .ok ())
    (hsec : sectionsOf doc = some secs)
    (hnn : isNull secs = false)
    (hpdf : env.pdfCreate = .ok docId)
    (hfetch : env.pdfFetch = .ok url)
    (hmail : env.mailResult = .ok ()) :
    handler env req =
      ⟨200, .success "Assessment generated and emailed successfully" url,
       [.captchaCall, .subsFetch, .grokCall,
        .upsertCall (sanitizeFormData env.normalizeEmail req.formData).email
          req.verificationToken
          (jsObjSet (fetchedMap rows) "IT Assessment" env.nowIso),
        .renderSubmit (mkPayload env.today
          (sanitizeFormData env.normalizeEmail req.formData) secs),
        .sleep 20000, .renderFetch docId,
        .emailSend (sanitizeFormData env.normalizeEmail req.formData).email
          url]⟩ := by
  rw [handler_reach_throttle env req e rows hv hh hc he hne hvt hrows, hthr]
  simp only [Bool.false_eq_true, if_false]
  unfold pipelineTail
  simp only [hg, hp, hup, hsec, hnn, hpdf, hfetch, hmail, if_false]
  simp

/-- C9 witness: with the fetched job carrying no `download_url` at all, the
email is still sent with the undefined value and the handler answers 200
with that value as `downloadUrl`. -/
theorem C9_witness :
    handler envNoUrl reqOk =
      ⟨200, .success "Assessment generated and emailed successfully" none,
       [.captchaCall, .subsFetch, .grokCall,
        .upsertCall (some "a@b.c") (some "vt")
          [("IT Assessment", "2026-01-02T00:00:00.000Z")],
        .renderSubmit
          { name := some "Al", company := some "Acme", company_size := some "1-10",
            it_challenge := some "security", it_setup := "Not provided",
            date := "2026-01-02", overview := some (Json.str "s0"),
            challengeAnalysis := some (Json.str "s1"),
            recommendations := some (Json.str "s2"),
            nextSteps := some (Json.str "s3") },
        .sleep 20000, .renderFetch "doc-1",
        .emailSend (some "a@b.c") none]⟩ :=
  C9_blind_wait envNoUrl reqOk "a@b.c" [] "raw" docOk
    (Json.arr [Json.str "s0", Json.str "s1", Json.str "s2", Json.str "s3"])
    "doc-1" none rfl rfl rfl rfl (by decide) rfl rfl rfl rfl rfl rfl rfl rfl rfl
    rfl rfl

theorem jsTrim_id_of (w : String) (c d : Char) (mid : List Char)
    (hw : w.data = c :: (mid ++ [d]))
    (hc : isJsSpace c = false) (hd : isJsSpace d = false) : jsTrim w = w := by
  have h1 : w.data.dropWhile isJsSpace = w.data := by
    rw [hw]
    simp [List.dropWhile_cons, hc]
  have hrev : w.data.reverse = d :: (mid.reverse ++ [c]) := by
    rw [hw]
    simp
  have h2 : w.data.reverse.dropWhile isJsSpace = w.data.reverse := by
    rw [hrev]
    simp [List.dropWhile_cons, hd]
  unfold jsTrim
  rw [h1, h2, List.reverse_reverse]

theorem jsSliceNeg_wrap (pre suf s : String) (a b : Nat)
    (ha : pre.data.length = a) (hb : suf.data.length = b) :
    jsSliceNeg (pre ++ s ++ suf) a b = s := by
  subst ha hb
  unfold jsSliceNeg
  have hdata : (pre ++ s ++ suf).data = pre.data ++ (s.data ++ suf.data) := by
    simp [String.data_append]
  rw [hdata]
  rw [List.drop_left]
  have hlen : (pre.data ++ (s.data ++ suf.data)).length - suf.data.length -
      pre.data.length = s.data.length := by
    simp [List.length_append]
    omega
  rw [hlen, List.take_left]

theorem json_not_pfx_pad (l : List Char)
    (h : ("json".data.isPrefixOf l) = false) :
    ("json".data.isPrefixOf (l ++ "```".data)) = false := by
  rcases l with _ | ⟨a, _ | ⟨b, _ | ⟨c, _ | ⟨d, rest⟩⟩⟩⟩
  · decide
  · rw [show ([a] ++ "```".data : List Char) = a :: "```".data from rfl]
    rw [show List.isPrefixOf "json".data (a :: "```".data) =
      (('j' : Char) == a && List.isPrefixOf "son".data "```".data) from rfl]
    rw [show List.isPrefixOf "son".data "```".data = false from rfl]
    simp
  · rw [show ([a, b] ++ "```".data : List Char) = a :: b :: "```".data from rfl]
    rw [show List.isPrefixOf "json".data (a :: b :: "```".data) =
      (('j' : Char) == a && (('s' : Char) == b &&
        List.isPrefixOf "on".data "```".data)) from rfl]
    rw [show List.isPrefixOf "on".data "```".data = false from rfl]
    simp
  · rw [show ([a, b, c] ++ "```".data : List Char) = a :: b :: c :: "```".data from rfl]
    rw [show List.isPrefixOf "json".data (a :: b :: c :: "```".data) =
      (('j' : Char) == a && (('s' : Char) == b && (('o' : Char) == c &&
        List.isPrefixOf "n".data "```".data))) from rfl]
    rw [show List.isPrefixOf "n".data "```".data = false from rfl]
    simp
  · rw [show ((a :: b :: c :: d :: rest) ++ "```".data : List Char) =
      a :: b :: c :: d :: (rest ++ "```".data) from rfl]
    rw [show ("json".data : List Char) = ['j', 's', 'o', 'n'] from rfl] at h ⊢
    simp only [List.isPrefixOf] at h ⊢
    exact h

theorem braceExtractL_wrap (m e l : List Char)
    (hm : ∀ c ∈ m, (c == lbrace) = false)
    (he1 : ∀ c ∈ e, (c == lbrace) = false)
    (he2 : ∀ c ∈ e, (c == rbrace) = false) :
    braceExtractL (m ++ l ++ e) = braceExtractL l := by
  have hm' : m.dropWhile (fun c => !(c == lbrace)) = [] := by
    rw [List.dropWhile_eq_nil_iff]
    intro a ha
    simp [hm a ha]
  have he1' : e.dropWhile (fun c => !(c == lbrace)) = [] := by
    rw [List.dropWhile_eq_nil_iff]
    intro a ha
    simp [he1 a ha]
  have he2' : e.reverse.dropWhile (fun c => !(c == rbrace)) = [] := by
    rw [List.dropWhile_eq_nil_iff]
    intro a ha
    simp [he2 a (List.mem_reverse.mp ha)]
  unfold braceExtractL
  rw [List.append_assoc, List.dropWhile_append, hm']
  simp only [List.isEmpty_nil, if_true]
  rw [List.dropWhile_append]
  cases hE : (l.dropWhile (fun c => !(c == lbrace))).isEmpty with
  | true =>
    have hEnil : l.dropWhile (fun c => !(c == lbrace)) = [] := by
      cases hx : l.dropWhile (fun c => !(c == lbrace)) with
      | nil => rfl
      | cons p q => rw [hx] at hE; exact Bool.noConfusion hE
    simp only [if_true, he1', hEnil]
  | false =>
    simp only [Bool.false_eq_true, if_false]
    rw [List.reverse_append, List.dropWhile_append, he2']
    simp only [List.isEmpty_nil, if_true]

theorem braceExtract_wrap (pre suf s : String)
    (hm : ∀ c ∈ pre.data, (c == lbrace) = false)
    (he1 : ∀ c ∈ suf.data, (c == lbrace) = false)
    (he2 : ∀ c ∈ suf.data, (c == rbrace) = false) :
    braceExtract (pre ++ s ++ suf) = braceExtract s := by
  unfold braceExtract
  rw [show (pre ++ s ++ suf).data = pre.data ++ s.data ++ suf.data by
    simp [String.data_append]]
  rw [braceExtractL_wrap pre.data suf.data s.data hm he1 he2]

theorem stripFences_jsonWrap (s : String) :
    stripFences ("```json" ++ s ++ "```") = jsTrim s := by
  have hdata : ("```json" ++ s ++ "```").data =
      "```json".data ++ s.data ++ "```".data := by
    simp [String.data_append]
  have htrim : jsTrim ("```json" ++ s ++ "```") = "```json" ++ s ++ "```" := by
    apply jsTrim_id_of _ btick btick ("``json".data ++ s.data ++ "``".data)
    · rw [hdata]
      rw [show "```json".data = btick :: "``json".data from rfl]
      rw [show "```".data = "``".data ++ [btick] from rfl]
      simp [List.append_assoc]
    · decide
    · decide
  have hstart : jsStartsWith ("```json" ++ s ++ "```") "```json" = true := by
    unfold jsStartsWith
    rw [hdata, List.append_assoc, List.isPrefixOf_iff_prefix]
    exact List.prefix_append _ _
  have hend : jsEndsWith ("```json" ++ s ++ "```") "```" = true := by
    unfold jsEndsWith
    rw [hdata, List.reverse_append, List.isPrefixOf_iff_prefix]
    exact List.prefix_append _ _
  have hslice : jsSliceNeg ("```json" ++ s ++ "```") 7 3 = s :=
    jsSliceNeg_wrap "```json" "```" s 7 3 rfl rfl
  unfold stripFences
  simp only [htrim, hstart, hend, Bool.and_self, if_true, hslice]

theorem stripFences_fenceWrap (s : String) (hj : jsStartsWith s "json" = false) :
    stripFences ("```" ++ s ++ "```") = jsTrim s := by
  have hdata : ("```" ++ s ++ "```").data =
      "```".data ++ s.data ++ "```".data := by
    simp [String.data_append]
  have htrim : jsTrim ("```" ++ s ++ "```") = "```" ++ s ++ "```" := by
    apply jsTrim_id_of _ btick btick ("``".data ++ s.data ++ "``".data)
    · rw [hdata]
      nth_rewrite 1 [show "```".data = btick :: "``".data from rfl]
      rw [show "```".data = "``".data ++ [btick] from rfl]
      simp [List.append_assoc]
    · decide
    · decide
  have hstart7 : jsStartsWith ("```" ++ s ++ "```") "```json" = false := by
    unfold jsStartsWith
    rw [hdata]
    have e : List.isPrefixOf "```json".data
        ("```".data ++ s.data ++ "```".data) =
        List.isPrefixOf "json".data (s.data ++ "```".data) := by
      rw [List.append_assoc]
      rfl
    rw [e]
    apply json_not_pfx_pad
    unfold jsStartsWith at hj
    exact hj
  have hstart3 : jsStartsWith ("```" ++ s ++ "```") "```" = true := by
    unfold jsStartsWith
    rw [hdata, List.append_assoc, List.isPrefixOf_iff_prefix]
    exact List.prefix_append _ _
  have hend : jsEndsWith ("```" ++ s ++ "```") "```" = true := by
    unfold jsEndsWith
    rw [hdata, List.reverse_append, List.isPrefixOf_iff_prefix]
    exact List.prefix_append _ _
  have hslice : jsSliceNeg ("```" ++ s ++ "```") 3 3 = s :=
    jsSliceNeg_wrap "```" "```" s 3 3 rfl rfl
  unfold stripFences
  simp only [htrim, hstart7, Bool.false_and, Bool.false_eq_true, if_false,
    hstart3, hend, Bool.and_self, if_true, hslice]

theorem parseGrok_wrap (p : String → Option Json) (pre suf s : String)
    (hstrip : stripFences (pre ++ s ++ suf) = jsTrim s)
    (hsf : stripFences s = jsTrim s)
    (hbe : braceExtract (pre ++ s ++ suf) = braceExtract s) :
    parseGrokContent p (pre ++ s ++ suf) = parseGrokContent p s := by
  unfold parseGrokContent
  rw [hstrip, hsf, hbe]

/-- C6 (amended): for every parse function and every string `s` that is
not itself fence-delimited (its fence stripping is plain trimming), the
completion output wrapped in a leading `--`json fence marker parses
identically to the unwrapped output; the same holds for the plain fence
marker provided `s` does not begin with the four characters `json` (in
that case the code's first branch strips seven characters instead of
three, which is the counterexample's divergence). -/
theorem C6_fence_wrap_parses_same (p : String → Option Json) (s : String)
    (hsf : stripFences s = jsTrim s) :
    parseGrokContent p ("```json" ++ s ++ "```") = parseGrokContent p s ∧
    (jsStartsWith s "json" = false →
      parseGrokContent p ("```" ++ s ++ "```") = parseGrokContent p s) := by
  constructor
  · exact parseGrok_wrap p "```json" "```" s (stripFences_jsonWrap s) hsf
      (braceExtract_wrap "```json" "```" s (by decide) (by decide) (by decide))
  · intro hj
    exact parseGrok_wrap p "```" "```" s (stripFences_fenceWrap s hj) hsf
      (braceExtract_wrap "```" "```" s (by decide) (by decide) (by decide))

/-- C6 counterexample: for the output `json1`, wrapping in the plain fence
marker does NOT parse identically to the unwrapped output: the wrapped
string begins with the seven characters of the json fence marker, so the
code strips seven characters, leaving `1`, which parses as the number 1,
while the unwrapped output fails to parse and has no brace-delimited
substring, so it raises a generation error. -/
theorem C6_counterexample :
    ¬ (parseGrokContent jsonParseImpl ("```" ++ "json1" ++ "```") =
       parseGrokContent jsonParseImpl "json1") := by
  intro h
  have h1 : parseGrokContent jsonParseImpl ("```" ++ "json1" ++ "```") =
      Except.ok (Json.num "1") := rfl
  have h2 : parseGrokContent jsonParseImpl "json1" = Except.error () := rfl
  rw [h1, h2] at h
  exact Except.noConfusion h

/-- C6 witness: the amended statement applied to the concrete output
`[1]`, which satisfies both provisos. -/
theorem C6_witness :
    parseGrokContent jsonParseImpl ("```json" ++ "[1]" ++ "```") =
      parseGrokContent jsonParseImpl "[1]" ∧
    parseGrokContent jsonParseImpl ("```" ++ "[1]" ++ "```") =
      parseGrokContent jsonParseImpl "[1]" :=
  ⟨(C6_fence_wrap_parses_same jsonParseImpl "[1]" rfl).1,
   (C6_fence_wrap_parses_same jsonParseImpl "[1]" rfl).2 rfl⟩

end ITAssess
